import Mathlib

/-!
# Alt-Audit: verification of the accessibility scan engine specification

This file shallowly embeds the Alt-Audit repository (a web-page image
accessibility auditor: React/TypeScript frontend plus a scan-engine backend)
and proves or refutes the specification's claims about it.

Conventions of the embedding:
* TypeScript optional fields (`x?: T`) become `Option` values; JavaScript
  truthiness tests on them are embedded explicitly (`undefined`, `0` and `""`
  are falsy).
* The backend scan engine (validator, fetcher, classifier, aggregator,
  lifecycle controller) is not part of the repository snapshot; those
  components are modelled from the specification text, and each such
  definition is marked `Modelled from the spec:` in its doc comment.
* Frontend functions are translated directly from their TypeScript source
  (file and line references in the doc comments).
-/

namespace AltAudit

/-! ## Data model (frontend/src/types/index.ts) -/

/-- Scan lifecycle status, `'pending' | 'running' | 'completed' | 'failed'`
(types/index.ts, `ScanStatus`). -/
inductive ScanStatus where
  | pending
  | running
  | completed
  | failed
deriving DecidableEq, Repr

/-- `ImageDetail` record (types/index.ts lines 45-56).  Optional TypeScript
fields are `Option`s; timestamps and ids are kept abstract as `Nat`/`String`. -/
structure ImageDetail where
  id : Nat
  scan_result_id : Nat
  image_url : String
  alt_text : Option String
  has_alt_text : Bool
  alt_text_length : Option Nat
  image_width : Option Nat
  image_height : Option Nat
  is_decorative : Bool
  created_at : String
deriving DecidableEq, Repr

/-- The five UI-facing alt-text quality tiers produced by
`getAltTextQuality` (ImageList.tsx). -/
inductive AltQuality where
  | missing
  | decorative
  | poor
  | tooLong
  | good
deriving DecidableEq, Repr

/-- JavaScript truthiness test `!x` on an optional number:
`undefined` and `0` are falsy. -/
def jsFalsyNat : Option Nat → Bool
  | none => true
  | some n => n == 0

/-- JavaScript comparison `x < m` on an optional number: `undefined < m`
evaluates to `false` (NaN comparison). -/
def jsLtNat : Option Nat → Nat → Bool
  | none, _ => false
  | some n, m => n < m

/-- JavaScript comparison `x > m` on an optional number: `undefined > m`
evaluates to `false` (NaN comparison). -/
def jsGtNat : Option Nat → Nat → Bool
  | none, _ => false
  | some n, m => m < n

/-- `getAltTextQuality` (ImageList.tsx lines 72-78), translated branch by
branch:

```ts
if (!image.has_alt_text) return 'missing';
if (image.is_decorative) return 'decorative';
if (!image.alt_text_length || image.alt_text_length < 5) return 'poor';
if (image.alt_text_length > 125) return 'too-long';
return 'good';
```
-/
def getAltTextQuality (image : ImageDetail) : AltQuality :=
  if !image.has_alt_text then .missing
  else if image.is_decorative then .decorative
  else if jsFalsyNat image.alt_text_length || jsLtNat image.alt_text_length 5 then .poor
  else if jsGtNat image.alt_text_length 125 then .tooLong
  else .good

/-! ## URL input validation (frontend/src/components/scanner/UrlInput.tsx) -/

/-- Boolean infix test on character lists, the semantics of JavaScript
`String.prototype.includes`. -/
def listIsInfix : List Char → List Char → Bool
  | sub, [] => sub.isEmpty
  | sub, c :: rest => sub.isPrefixOf (c :: rest) || listIsInfix sub rest

/-- JavaScript `s.includes(sub)` as a substring test on lowered character
lists is built from `listIsInfix`; `toLowerChars` is `String.prototype.toLowerCase`
restricted to the per-character lowering the audit observes. -/
def toLowerChars (s : String) : List Char := s.toList.map Char.toLower

/-- The scheme refinement of `urlSchema` (UrlInput.tsx lines 14-17):

```ts
.refine((url) => url.startsWith('http://') || url.startsWith('https://'), ...)
```
-/
def urlSchemeRefine (url : String) : Bool :=
  "http://".toList.isPrefixOf url.toList || "https://".toList.isPrefixOf url.toList

/-- The scheme of a raw URL string: the characters before the first `':'`
(the generic-URI notion of scheme the specification refers to). -/
def urlScheme (url : String) : List Char :=
  url.toList.takeWhile (fun c => c ≠ ':')

/-! ## ApiClient authentication state (frontend/src/services/api.ts) -/

/-- JavaScript truthiness `!!x` on an optional string: `undefined`, `null`
and `""` are falsy. -/
def jsTruthyStr : Option String → Bool
  | none => false
  | some s => !(s == "")

/-- The mutable state of the `ApiClient` singleton that the authentication
methods touch: `this.token`, the default `Authorization` header, and the
`localStorage` entry `access_token` (api.ts lines 23-25, 109-119). -/
structure ApiClientState where
  token : Option String
  authHeader : Option String
  storedToken : Option String
deriving DecidableEq, Repr

/-- `setAuthToken` (api.ts lines 109-113): stores the token, sets the
`Authorization: Bearer <t>` default header, writes `localStorage`. -/
def setAuthToken (_s : ApiClientState) (t : String) : ApiClientState :=
  { token := some t, authHeader := some ("Bearer " ++ t), storedToken := some t }

/-- `clearAuth` (api.ts lines 115-119): nulls the token, deletes the header,
removes the `localStorage` entry. -/
def clearAuth (_s : ApiClientState) : ApiClientState :=
  { token := none, authHeader := none, storedToken := none }

/-- `login` (api.ts lines 122-127): on success stores the returned
`access_token` via `setAuthToken`. -/
def login (s : ApiClientState) (accessToken : String) : ApiClientState :=
  setAuthToken s accessToken

/-- `logout` (api.ts lines 151-153): just calls `clearAuth`. -/
def logout (s : ApiClientState) : ApiClientState :=
  clearAuth s

/-- `getToken` (api.ts lines 253-255): returns `this.token`. -/
def getToken (s : ApiClientState) : Option String :=
  s.token

/-- `isAuthenticated` (api.ts lines 249-251): `return !!this.token`. -/
def isAuthenticated (s : ApiClientState) : Bool :=
  jsTruthyStr s.token

/-! ## getScans query construction and client-side search
(frontend/src/services/api.ts lines 161-175, ScanHistory lines 118-124) -/

/-- `PaginationParams` (types/index.ts lines 148-151). -/
structure PaginationParams where
  skip : Nat
  limit : Nat
deriving DecidableEq, Repr

/-- `ScanFilters` (types/index.ts lines 162-167). -/
structure ScanFilters where
  status : Option ScanStatus
  start_date : Option String
  end_date : Option String
  search : Option String
deriving DecidableEq, Repr

/-- The string value of a `ScanStatus` union member. -/
def scanStatusString : ScanStatus → String
  | .pending => "pending"
  | .running => "running"
  | .completed => "completed"
  | .failed => "failed"

/-- `ScanResultSummary` (types/index.ts lines 34-43). -/
structure ScanResultSummary where
  id : Nat
  url : String
  total_images : Nat
  images_with_alt : Nat
  images_missing_alt : Nat
  scan_status : ScanStatus
  alt_text_coverage_percentage : ℚ
  created_at : String
deriving DecidableEq, Repr

/-- One conditional `params.append(key, v)` guarded by a JavaScript
truthiness test `if (v) { params.append(key, v) }`: appends nothing when the
optional value is absent or the empty string. -/
def truthyEntry (key : String) (v : Option String) : List (String × String) :=
  match v with
  | some d => if d == "" then [] else [(key, d)]
  | none => []

/-- The `URLSearchParams` built by `getScans` (api.ts lines 165-171):
`skip` and `limit` always; `status_filter`, `start_date`, `end_date` under
JavaScript truthiness tests (`if (filters.status) ...` etc.); nothing else —
in particular `filters.search` is never read.  `filters.status` is a string
union, so its truthiness test sees its string value. -/
def getScansParams (pagination : PaginationParams) (filters : ScanFilters) :
    List (String × String) :=
  [("skip", toString pagination.skip), ("limit", toString pagination.limit)]
  ++ truthyEntry "status_filter" (filters.status.map scanStatusString)
  ++ truthyEntry "start_date" filters.start_date
  ++ truthyEntry "end_date" filters.end_date

/-- `filteredScans` (ScanHistory, lines 118-124): a client-side filter of the
already-loaded scans; with a non-empty search term it keeps the scans whose
lowercased URL contains the lowercased term, otherwise it keeps everything.

```ts
const filteredScans = scans.filter(scan => {
  if (searchTerm) {
    const searchLower = searchTerm.toLowerCase();
    return scan.url.toLowerCase().includes(searchLower);
  }
  return true;
});
```
-/
def filteredScans (searchTerm : String) (scans : List ScanResultSummary) :
    List ScanResultSummary :=
  scans.filter fun scan =>
    if searchTerm ≠ "" then listIsInfix (toLowerChars searchTerm) (toLowerChars scan.url)
    else true

/-! ## Alt-text classifier (spec §4.4)

The backend scan engine is not part of the repository snapshot; the
components below are modelled from the specification text. -/

/-- A raw image reference produced by the Extractor (spec §4.3): `src`,
the literal `alt` attribute (absent vs. present, possibly empty), and
declared dimensions. -/
structure RawImageRef where
  src : String
  alt : Option String
  width : Option Nat
  height : Option Nat
deriving DecidableEq, Repr

/-- The classifier outputs of spec §4.4 — the three derived `ImageDetail`
fields. -/
structure ClassifiedAlt where
  has_alt_text : Bool
  is_decorative : Bool
  alt_text_length : Option Nat
deriving DecidableEq, Repr

/-- Modelled from the spec: the Alt-Text Classifier (§4.4), whose backend
source is not in the repository. `has_alt_text = (alt attribute present)`;
`is_decorative = (alt present AND value == "")`;
`alt_text_length = length(alt_text)` when the alt text is non-empty,
absent otherwise. -/
def classify (ref : RawImageRef) : ClassifiedAlt :=
  { has_alt_text := ref.alt.isSome
    is_decorative := ref.alt == some ""
    alt_text_length :=
      match ref.alt with
      | some a => if a = "" then none else some a.length
      | none => none }

/-! ## Coverage aggregator (spec §4.5) -/

/-- Round a rational to one decimal place, half up:
`⌊x·10 + 1/2⌋ / 10`. -/
def roundHalfUpTenths (q : ℚ) : ℚ :=
  (⌊q * 10 + 1 / 2⌋ : ℚ) / 10

/-- The aggregate record of spec §4.5. -/
structure AggregateCounts where
  total_images : Nat
  images_with_alt : Nat
  images_missing_alt : Nat
  coverage_percentage : ℚ
deriving DecidableEq, Repr

/-- Modelled from the spec: the Coverage Aggregator (§4.5), whose backend
source is not in the repository. `images_with_alt` counts
`has_alt_text = true`; `coverage_percentage` is
`images_with_alt / total_images * 100` rounded half-up to one decimal,
and exactly `0` when `total_images = 0`. -/
def aggregate (images : List ClassifiedAlt) : AggregateCounts :=
  let total := images.length
  let withAlt := images.countP (fun i => i.has_alt_text)
  { total_images := total
    images_with_alt := withAlt
    images_missing_alt := images.countP (fun i => !i.has_alt_text)
    coverage_percentage :=
      if total = 0 then 0
      else roundHalfUpTenths ((withAlt : ℚ) / (total : ℚ) * 100) }

/-! ## Scan lifecycle controller (spec §4.6) -/

/-- The `ScanResult` row as the Lifecycle Controller mutates it, together
with its owned `ImageDetail` rows (spec §3, §4.6). -/
structure ScanRecord where
  status : ScanStatus
  total_images : Nat
  images_with_alt : Nat
  images_missing_alt : Nat
  alt_text_coverage_percentage : ℚ
  error_message : Option String
  images : List ClassifiedAlt
deriving DecidableEq, Repr

/-- Modelled from the spec: Create (§4.6) persists a new `ScanResult` in
`pending` with empty counts and no `ImageDetail` rows. -/
def createScan : ScanRecord :=
  { status := .pending
    total_images := 0
    images_with_alt := 0
    images_missing_alt := 0
    alt_text_coverage_percentage := 0
    error_message := none
    images := [] }

/-- Modelled from the spec: the `pending → running` transition (§4.6), set
immediately before invoking the Fetcher. -/
def startScan (r : ScanRecord) : ScanRecord :=
  { r with status := .running }

/-- Modelled from the spec: the `running → completed` transition (§4.6):
the aggregate counts and the `ImageDetail` rows are persisted atomically
with the status flip. -/
def completeScan (r : ScanRecord) (classified : List ClassifiedAlt) : ScanRecord :=
  let agg := aggregate classified
  { r with
      status := .completed
      total_images := agg.total_images
      images_with_alt := agg.images_with_alt
      images_missing_alt := agg.images_missing_alt
      alt_text_coverage_percentage := agg.coverage_percentage
      error_message := none
      images := classified }

/-- Modelled from the spec: the `running → failed` transition (§4.6):
`error_message` is set and a failed scan has zero `ImageDetail` rows (§3). -/
def failScan (r : ScanRecord) (msg : String) : ScanRecord :=
  { r with status := .failed, error_message := some msg, images := [] }

/-- The rejection raised by `RetryScan` on a scan that is not `failed`. -/
inductive RetryError where
  | invalidState
deriving DecidableEq, Repr

/-- Modelled from the spec: `RetryScan` (§4.6, §6) — rejected with an
invalid-state error unless the current status is `failed`; on acceptance it
clears `error_message`, discards the existing `ImageDetail` rows and
re-enters `pending`. -/
def retryScan (r : ScanRecord) : Except RetryError ScanRecord :=
  if r.status = .failed then
    .ok { r with status := .pending, error_message := none, images := [] }
  else
    .error .invalidState

/-- The observable effect of a `RetryScan` request on the stored record:
the (possibly unchanged) record and the error, if any. -/
def applyRetryScan (r : ScanRecord) : ScanRecord × Option RetryError :=
  match retryScan r with
  | .ok r2 => (r2, none)
  | .error e => (r, some e)

/-- Modelled from the spec: the transition table of the scan lifecycle
(§4.6) as a step relation on the stored record. -/
inductive LifecycleStep : ScanRecord → ScanRecord → Prop where
  | start (r : ScanRecord) :
      r.status = .pending → LifecycleStep r (startScan r)
  | complete (r : ScanRecord) (classified : List ClassifiedAlt) :
      r.status = .running → LifecycleStep r (completeScan r classified)
  | fail (r : ScanRecord) (msg : String) :
      r.status = .running → LifecycleStep r (failScan r msg)
  | retry (r r2 : ScanRecord) :
      retryScan r = .ok r2 → LifecycleStep r r2

/-- A record state the lifecycle can reach from a freshly created scan. -/
def LifecycleReachable (r : ScanRecord) : Prop :=
  Relation.ReflTransGen LifecycleStep createScan r

/-- The count invariant of spec §3:
`total_images = images_with_alt + images_missing_alt`. -/
def CountInvariant (r : ScanRecord) : Prop :=
  r.total_images = r.images_with_alt + r.images_missing_alt

/-! ## URL safety validator and scan pipeline (spec §4.1, §4.6, §7) -/

/-- A resolved IP address: dotted-quad IPv4 or 16-bit-segment IPv6. -/
inductive IPAddr where
  | v4 (a b c d : Nat)
  | v6 (segments : List Nat)
deriving DecidableEq, Repr

/-- Modelled from the spec: the non-public-address predicate of the URL
Safety Validator (§4.1) — loopback, link-local, private (RFC 1918/4193),
multicast, and reserved/unspecified addresses. -/
def isNonPublicAddress : IPAddr → Bool
  | .v4 a b _ _ =>
      a == 127 ||
      a == 10 ||
      (a == 172 && (16 ≤ b && b ≤ 31)) ||
      (a == 192 && b == 168) ||
      (a == 169 && b == 254) ||
      (224 ≤ a && a ≤ 239) ||
      240 ≤ a ||
      a == 0
  | .v6 segs =>
      segs == [0, 0, 0, 0, 0, 0, 0, 1] ||
      segs == [0, 0, 0, 0, 0, 0, 0, 0] ||
      (match segs with
       | s :: _ =>
           (0xfc00 ≤ s && s ≤ 0xfdff) ||
           (0xfe80 ≤ s && s ≤ 0xfebf) ||
           (0xff00 ≤ s && s ≤ 0xffff)
       | [] => false)

/-- The addresses the SSRF claim lists explicitly: `127.0.0.1`,
`10.0.0.0/8`, `169.254.0.0/16`, `::1`. -/
def isClaimListedAddress : IPAddr → Bool
  | .v4 a b c d =>
      (a == 127 && b == 0 && c == 0 && d == 1) ||
      a == 10 ||
      (a == 169 && b == 254)
  | .v6 segs => segs == [0, 0, 0, 0, 0, 0, 0, 1]

/-- The scheme and host of a parsed URL, the inputs the validator needs. -/
structure URLParts where
  scheme : String
  host : String
deriving DecidableEq, Repr

/-- The engine error taxonomy of spec §7. -/
inductive EngineError where
  | validationError (msg : String)
  | ssrfBlocked
  | fetchTimeout
  | fetchHTTPStatus (code : Nat)
  | fetchOversize
  | fetchUnsupportedContentType
  | fetchNetworkError
deriving DecidableEq, Repr

/-- Modelled from the spec: the URL Safety Validator (§4.1), whose backend
source is not in the repository.  It rejects non-`http`/`https` schemes as
a `ValidationError`, treats a failed DNS resolution as a `ValidationError`,
and returns `SSRFBlocked` if any resolved address is non-public.  `resolve`
abstracts DNS resolution (hostname to the list of resolved addresses). -/
def validateURL (resolve : String → List IPAddr) (u : URLParts) :
    Except EngineError URLParts :=
  if u.scheme ≠ "http" ∧ u.scheme ≠ "https" then
    .error (.validationError "unsupported scheme")
  else if resolve u.host = [] then
    .error (.validationError "DNS resolution failed")
  else if (resolve u.host).any isNonPublicAddress then
    .error .ssrfBlocked
  else
    .ok u

/-- The externally visible state of one `RequestScan` pipeline execution:
the scan status, the recorded error, and whether an outbound fetch has been
attempted. -/
structure PipelineState where
  status : ScanStatus
  error : Option EngineError
  fetchAttempted : Bool
deriving DecidableEq, Repr

/-- A `RequestScan` starts its pipeline in `pending`, with no error and no
fetch attempted (spec §4.6, Create). -/
def initialPipelineState : PipelineState :=
  { status := .pending, error := none, fetchAttempted := false }

/-- Modelled from the spec: the `RequestScan` pipeline step relation
(§4.6, §7) for a fixed URL `u` under DNS behaviour `resolve`.  Validation
happens after `pending → running` and before any fetch; a validation error
short-circuits to `failed` with no network I/O; only a validated URL
reaches the fetch, which then completes or fails the scan. -/
inductive PipelineStep (resolve : String → List IPAddr) (u : URLParts) :
    PipelineState → PipelineState → Prop where
  | start :
      PipelineStep resolve u
        { status := .pending, error := none, fetchAttempted := false }
        { status := .running, error := none, fetchAttempted := false }
  | validationFails (e : EngineError) :
      validateURL resolve u = .error e →
      PipelineStep resolve u
        { status := .running, error := none, fetchAttempted := false }
        { status := .failed, error := some e, fetchAttempted := false }
  | beginFetch (su : URLParts) :
      validateURL resolve u = .ok su →
      PipelineStep resolve u
        { status := .running, error := none, fetchAttempted := false }
        { status := .running, error := none, fetchAttempted := true }
  | fetchSucceeds :
      PipelineStep resolve u
        { status := .running, error := none, fetchAttempted := true }
        { status := .completed, error := none, fetchAttempted := true }
  | fetchFails (e : EngineError) :
      PipelineStep resolve u
        { status := .running, error := none, fetchAttempted := true }
        { status := .failed, error := some e, fetchAttempted := true }

/-- A pipeline state reachable from the initial state of a `RequestScan`
execution. -/
def PipelineReachable (resolve : String → List IPAddr) (u : URLParts)
    (s : PipelineState) : Prop :=
  Relation.ReflTransGen (PipelineStep resolve u) initialPipelineState s

/-! ## Theorems -/

/-- C1: `getAltTextQuality` is a pure function of `has_alt_text`,
`is_decorative` and `alt_text_length` returning `missing` when
`has_alt_text` is false; `decorative` when `has_alt_text` and
`is_decorative`; `poor` when `has_alt_text`, not `is_decorative` and
`alt_text_length < 5`; `too-long` when `alt_text_length > 125`; and `good`
otherwise (`5 ≤ alt_text_length ≤ 125`). -/
theorem getAltTextQuality_spec :
    (∀ image : ImageDetail, image.has_alt_text = false →
      getAltTextQuality image = .missing) ∧
    (∀ image : ImageDetail, image.has_alt_text = true → image.is_decorative = true →
      getAltTextQuality image = .decorative) ∧
    (∀ (image : ImageDetail) (n : Nat), image.has_alt_text = true →
      image.is_decorative = false → image.alt_text_length = some n → n < 5 →
      getAltTextQuality image = .poor) ∧
    (∀ (image : ImageDetail) (n : Nat), image.has_alt_text = true →
      image.is_decorative = false → image.alt_text_length = some n → 125 < n →
      getAltTextQuality image = .tooLong) ∧
    (∀ (image : ImageDetail) (n : Nat), image.has_alt_text = true →
      image.is_decorative = false → image.alt_text_length = some n → 5 ≤ n → n ≤ 125 →
      getAltTextQuality image = .good) ∧
    (∀ i1 i2 : ImageDetail, i1.has_alt_text = i2.has_alt_text →
      i1.is_decorative = i2.is_decorative → i1.alt_text_length = i2.alt_text_length →
      getAltTextQuality i1 = getAltTextQuality i2) := by
  refine ⟨?_, ?_, ?_, ?_, ?_, ?_⟩
  · intro image h
    simp [getAltTextQuality, h]
  · intro image h1 h2
    simp [getAltTextQuality, h1, h2]
  · intro image n h1 h2 h3 h4
    simp [getAltTextQuality, h1, h2, h3, jsFalsyNat, jsLtNat]
    omega
  · intro image n h1 h2 h3 h4
    have e1 : jsFalsyNat (some n) = false := by simp [jsFalsyNat]; omega
    have e2 : jsLtNat (some n) 5 = false := by simp [jsLtNat]; omega
    have e3 : jsGtNat (some n) 125 = true := by simp [jsGtNat]; omega
    simp [getAltTextQuality, h1, h2, h3, e1, e2, e3]
  · intro image n h1 h2 h3 h4 h5
    have e1 : jsFalsyNat (some n) = false := by simp [jsFalsyNat]; omega
    have e2 : jsLtNat (some n) 5 = false := by simp [jsLtNat]; omega
    have e3 : jsGtNat (some n) 125 = false := by simp [jsGtNat]; omega
    simp [getAltTextQuality, h1, h2, h3, e1, e2, e3]
  · intro i1 i2 h1 h2 h3
    simp only [getAltTextQuality, h1, h2, h3]

/-- Witness for C1: a 13-character alt text is classified `good`. -/
theorem getAltTextQuality_spec_witness :
    getAltTextQuality
      ⟨1, 1, "cat.png", some "A cat picture", true, some 13, none, none, false, "t"⟩
      = .good :=
  getAltTextQuality_spec.2.2.2.2.1 _ 13 rfl rfl rfl (by decide) (by decide)

/-- C8: `getAltTextQuality` is total — it returns one of the five tiers for
every `ImageDetail` — and an image with alt text, not decorative, whose
`alt_text_length` is absent or `0` is classified `poor` (never `good`). -/
theorem getAltTextQuality_total :
    (∀ image : ImageDetail,
      getAltTextQuality image = .missing ∨ getAltTextQuality image = .decorative ∨
      getAltTextQuality image = .poor ∨ getAltTextQuality image = .tooLong ∨
      getAltTextQuality image = .good) ∧
    (∀ image : ImageDetail, image.has_alt_text = true → image.is_decorative = false →
      (image.alt_text_length = none ∨ image.alt_text_length = some 0) →
      getAltTextQuality image = .poor) := by
  constructor
  · intro image
    cases h : getAltTextQuality image <;> simp
  · intro image h1 h2 h3
    rcases h3 with h3 | h3 <;> simp [getAltTextQuality, h1, h2, h3, jsFalsyNat]

/-- Witness for C8: alt text present but with no recorded length is `poor`. -/
theorem getAltTextQuality_total_witness :
    getAltTextQuality ⟨2, 1, "logo.png", some "", true, none, none, none, false, "t"⟩
      = .poor :=
  getAltTextQuality_total.2 _ rfl rfl (Or.inl rfl)

/-- Appending a character list to `"http://"` leaves scheme `http`. -/
theorem urlScheme_of_append_http (l : List Char) (t : List Char)
    (h : l = "http://".toList ++ t) :
    l.takeWhile (fun c => c ≠ ':') = "http".toList := by
  subst h
  rfl

/-- Appending a character list to `"https://"` leaves scheme `https`. -/
theorem urlScheme_of_append_https (l : List Char) (t : List Char)
    (h : l = "https://".toList ++ t) :
    l.takeWhile (fun c => c ≠ ':') = "https".toList := by
  subst h
  rfl

/-- A raw URL accepted by the scheme refinement has scheme `http` or
`https`. -/
theorem urlSchemeRefine_scheme_cases (url : String) (h : urlSchemeRefine url = true) :
    urlScheme url = "http".toList ∨ urlScheme url = "https".toList := by
  unfold urlSchemeRefine at h
  rcases Bool.or_eq_true_iff.mp h with h1 | h1
  · left
    have hp := List.isPrefixOf_iff_prefix.mp h1
    obtain ⟨t, ht⟩ := hp
    exact urlScheme_of_append_http url.toList t ht.symm
  · right
    have hp := List.isPrefixOf_iff_prefix.mp h1
    obtain ⟨t, ht⟩ := hp
    exact urlScheme_of_append_https url.toList t ht.symm

/-- C6 (amended): the `urlSchema` scheme refinement rejects every raw URL
whose scheme is not `http` or `https`; it accepts on scheme grounds exactly
the raw URLs that begin with the literal `http://` or `https://` (so a URL
with scheme `http` not written in `://` form is also rejected — see the
counterexample). -/
theorem urlSchemeRefine_spec :
    (∀ url : String, urlScheme url ≠ "http".toList → urlScheme url ≠ "https".toList →
      urlSchemeRefine url = false) ∧
    (∀ url : String, urlSchemeRefine url = true →
      urlScheme url = "http".toList ∨ urlScheme url = "https".toList) ∧
    (∀ url : String,
      "http://".toList.isPrefixOf url.toList = true ∨
      "https://".toList.isPrefixOf url.toList = true →
      urlSchemeRefine url = true) := by
  refine ⟨?_, urlSchemeRefine_scheme_cases, ?_⟩
  · intro url h1 h2
    by_contra hne
    have ht : urlSchemeRefine url = true := by
      cases h : urlSchemeRefine url
      · exact absurd h hne
      · rfl
    rcases urlSchemeRefine_scheme_cases url ht with h | h
    · exact h1 h
    · exact h2 h
  · intro url h
    unfold urlSchemeRefine
    rcases h with h | h
    · simp only [h, Bool.true_or]
    · simp only [h, Bool.or_true]

/-- Witness for C6: an `ftp://` URL is rejected by the scheme refinement. -/
theorem urlSchemeRefine_spec_witness :
    urlSchemeRefine "ftp://example.com" = false :=
  urlSchemeRefine_spec.1 "ftp://example.com" (by decide) (by decide)

/-- Counterexample to C6 as stated: `http:example.com` has scheme `http`
but is still rejected by the scheme refinement, because the refinement
tests for the literal prefixes `http://`/`https://`, not for the scheme. -/
theorem urlSchemeRefine_counterexample :
    urlScheme "http:example.com" = "http".toList ∧
    urlSchemeRefine "http:example.com" = false := by
  constructor
  · rfl
  · decide

/-- C9 (amended): after `setAuthToken t` (including via `login`) with a
non-empty `t`, `getToken` returns `t` and `isAuthenticated` is true; after
`clearAuth` (including via `logout`), `getToken` is null and
`isAuthenticated` is false; and the stored token, the `Authorization`
header and the `localStorage` entry agree after every operation.  The
non-emptiness condition is forced by the counterexample: `isAuthenticated`
is the JavaScript truthiness `!!this.token`, which is false on the empty
string. -/
theorem apiClient_auth_invariant :
    (∀ (s : ApiClientState) (t : String), t ≠ "" →
      getToken (setAuthToken s t) = some t ∧ isAuthenticated (setAuthToken s t) = true) ∧
    (∀ (s : ApiClientState) (t : String), t ≠ "" →
      getToken (login s t) = some t ∧ isAuthenticated (login s t) = true) ∧
    (∀ s : ApiClientState,
      getToken (clearAuth s) = none ∧ isAuthenticated (clearAuth s) = false) ∧
    (∀ s : ApiClientState,
      getToken (logout s) = none ∧ isAuthenticated (logout s) = false) ∧
    (∀ (s : ApiClientState) (t : String),
      (setAuthToken s t).authHeader = some ("Bearer " ++ t) ∧
      (setAuthToken s t).storedToken = some t ∧
      (clearAuth s).authHeader = none ∧ (clearAuth s).storedToken = none) := by
  refine ⟨?_, ?_, ?_, ?_, ?_⟩
  · intro s t ht
    exact ⟨rfl, by simp [isAuthenticated, setAuthToken, jsTruthyStr, ht]⟩
  · intro s t ht
    exact ⟨rfl, by simp [isAuthenticated, login, setAuthToken, jsTruthyStr, ht]⟩
  · intro s
    exact ⟨rfl, rfl⟩
  · intro s
    exact ⟨rfl, rfl⟩
  · intro s t
    exact ⟨rfl, rfl, rfl, rfl⟩

/-- Witness for C9: a concrete non-empty token round-trips. -/
theorem apiClient_auth_invariant_witness :
    getToken (setAuthToken ⟨none, none, none⟩ "tok") = some "tok" ∧
    isAuthenticated (setAuthToken ⟨none, none, none⟩ "tok") = true :=
  apiClient_auth_invariant.1 ⟨none, none, none⟩ "tok" (by decide)

/-- Counterexample to C9 as stated: `setAuthToken ""` stores the empty
token (`getToken` returns it) yet `isAuthenticated` is false, so the
claim's unconditional "isAuthenticated() returns true after setAuthToken(t)"
fails at `t = ""`. -/
theorem apiClient_auth_counterexample :
    getToken (setAuthToken ⟨none, none, none⟩ "") = some "" ∧
    isAuthenticated (setAuthToken ⟨none, none, none⟩ "") = false := by
  constructor
  · rfl
  · rfl

/-- An entry produced by a truthiness-guarded append carries that key, and
its optional source value is present. -/
theorem mem_truthyEntry (key : String) (v : Option String) (kv : String × String)
    (h : kv ∈ truthyEntry key v) : kv.1 = key ∧ v.isSome = true := by
  cases v with
  | none => simp [truthyEntry] at h
  | some d =>
    by_cases he : (d == "") = true
    · simp [truthyEntry, he] at h
    · simp [truthyEntry, he] at h
      rw [h]
      exact ⟨rfl, rfl⟩

/-- C10: `getScans` puts exactly `skip`, `limit` and — only when set —
`status_filter`, `start_date`, `end_date` into the query string; the
`search` filter field never affects the request; and URL search filtering
is applied client-side as a case-insensitive substring match over only the
already-loaded scans. -/
theorem getScansParams_spec :
    (∀ (p : PaginationParams) (f : ScanFilters),
      ("skip", toString p.skip) ∈ getScansParams p f ∧
      ("limit", toString p.limit) ∈ getScansParams p f) ∧
    (∀ (p : PaginationParams) (f : ScanFilters) (kv : String × String),
      kv ∈ getScansParams p f →
      kv.1 = "skip" ∨ kv.1 = "limit" ∨ kv.1 = "status_filter" ∨
      kv.1 = "start_date" ∨ kv.1 = "end_date") ∧
    (∀ (p : PaginationParams) (f : ScanFilters) (v : String),
      (("status_filter", v) ∈ getScansParams p f → f.status.isSome = true) ∧
      (("start_date", v) ∈ getScansParams p f → f.start_date.isSome = true) ∧
      (("end_date", v) ∈ getScansParams p f → f.end_date.isSome = true)) ∧
    (∀ (p : PaginationParams) (f : ScanFilters) (s : Option String),
      getScansParams p { f with search := s } = getScansParams p f) ∧
    (∀ (searchTerm : String) (scans : List ScanResultSummary) (scan : ScanResultSummary),
      scan ∈ filteredScans searchTerm scans ↔
        scan ∈ scans ∧ (searchTerm ≠ "" →
          listIsInfix (toLowerChars searchTerm) (toLowerChars scan.url) = true)) := by
  refine ⟨?_, ?_, ?_, ?_, ?_⟩
  · intro p f
    constructor <;> simp [getScansParams]
  · intro p f kv hkv
    simp only [getScansParams, List.mem_append, List.mem_cons, List.not_mem_nil,
      or_false] at hkv
    rcases hkv with (((h | h) | h) | h) | h
    · left; rw [h]
    · right; left; rw [h]
    · exact Or.inr (Or.inr (Or.inl (mem_truthyEntry _ _ _ h).1))
    · exact Or.inr (Or.inr (Or.inr (Or.inl (mem_truthyEntry _ _ _ h).1)))
    · exact Or.inr (Or.inr (Or.inr (Or.inr (mem_truthyEntry _ _ _ h).1)))
  · intro p f v
    refine ⟨?_, ?_, ?_⟩ <;> intro h <;>
      simp only [getScansParams, List.mem_append, List.mem_cons, List.not_mem_nil,
        or_false] at h
    · rcases h with (((h | h) | h) | h) | h
      · exact absurd (congrArg Prod.fst h) (by simp)
      · exact absurd (congrArg Prod.fst h) (by simp)
      · have := (mem_truthyEntry _ _ _ h).2
        simpa using this
      · exact absurd (mem_truthyEntry _ _ _ h).1 (by simp)
      · exact absurd (mem_truthyEntry _ _ _ h).1 (by simp)
    · rcases h with (((h | h) | h) | h) | h
      · exact absurd (congrArg Prod.fst h) (by simp)
      · exact absurd (congrArg Prod.fst h) (by simp)
      · exact absurd (mem_truthyEntry _ _ _ h).1 (by simp)
      · exact (mem_truthyEntry _ _ _ h).2
      · exact absurd (mem_truthyEntry _ _ _ h).1 (by simp)
    · rcases h with (((h | h) | h) | h) | h
      · exact absurd (congrArg Prod.fst h) (by simp)
      · exact absurd (congrArg Prod.fst h) (by simp)
      · exact absurd (mem_truthyEntry _ _ _ h).1 (by simp)
      · exact absurd (mem_truthyEntry _ _ _ h).1 (by simp)
      · exact (mem_truthyEntry _ _ _ h).2
  · intro p f s
    rfl
  · intro searchTerm scans scan
    simp only [filteredScans, List.mem_filter]
    constructor
    · rintro ⟨h1, h2⟩
      refine ⟨h1, fun hne => ?_⟩
      rw [if_pos hne] at h2
      exact h2
    · rintro ⟨h1, h2⟩
      refine ⟨h1, ?_⟩
      by_cases hne : searchTerm = ""
      · rw [if_neg (by simp [hne])]
      · rw [if_pos hne]
        exact h2 hne

/-- Witness for C10: `skip` and `limit` are present in a concrete request,
even with a search term set. -/
theorem getScansParams_spec_witness :
    ("skip", toString (0 : Nat)) ∈
      getScansParams ⟨0, 10⟩ ⟨none, none, none, some "cats"⟩ ∧
    ("limit", toString (10 : Nat)) ∈
      getScansParams ⟨0, 10⟩ ⟨none, none, none, some "cats"⟩ :=
  getScansParams_spec.1 ⟨0, 10⟩ ⟨none, none, none, some "cats"⟩

/-- C7: the alt-text classifier is total and deterministic; `alt` absent
maps to `has_alt_text = false`, `is_decorative = false`; `alt = ""` maps to
`has_alt_text = true`, `is_decorative = true`; `alt = "x"` maps to
`has_alt_text = true`, `is_decorative = false`, `alt_text_length = 1`; the
length is absent whenever the alt text is empty or missing. -/
theorem classify_spec :
    (∀ ref : RawImageRef, ref.alt = none →
      (classify ref).has_alt_text = false ∧ (classify ref).is_decorative = false ∧
      (classify ref).alt_text_length = none) ∧
    (∀ ref : RawImageRef, ref.alt = some "" →
      (classify ref).has_alt_text = true ∧ (classify ref).is_decorative = true ∧
      (classify ref).alt_text_length = none) ∧
    (∀ ref : RawImageRef, ref.alt = some "x" →
      (classify ref).has_alt_text = true ∧ (classify ref).is_decorative = false ∧
      (classify ref).alt_text_length = some 1) ∧
    (∀ (ref : RawImageRef) (c1 c2 : ClassifiedAlt),
      classify ref = c1 → classify ref = c2 → c1 = c2) := by
  refine ⟨?_, ?_, ?_, ?_⟩
  · intro ref h
    simp [classify, h]
  · intro ref h
    simp [classify, h]
  · intro ref h
    refine ⟨by simp [classify, h], by simp [classify, h], ?_⟩
    simp [classify, h]
    decide
  · intro ref c1 c2 h1 h2
    rw [← h1, ← h2]

/-- Witness for C7: a concrete image reference with no `alt` attribute. -/
theorem classify_spec_witness :
    (classify ⟨"cat.png", none, none, none⟩).has_alt_text = false ∧
    (classify ⟨"cat.png", none, none, none⟩).is_decorative = false ∧
    (classify ⟨"cat.png", none, none, none⟩).alt_text_length = none :=
  classify_spec.1 ⟨"cat.png", none, none, none⟩ rfl

/-- A list's length is the count of elements with alt text plus the count
without. -/
theorem countP_add_countP_not (l : List ClassifiedAlt) :
    l.length = l.countP (fun i => i.has_alt_text)
      + l.countP (fun i => !i.has_alt_text) := by
  induction l with
  | nil => rfl
  | cons a l ih =>
    rw [List.length_cons, List.countP_cons, List.countP_cons]
    cases h : a.has_alt_text <;> simp [h] <;> omega

/-- C3: the counts are non-negative (they live in `Nat`) and
`total_images = images_with_alt + images_missing_alt` holds for a freshly
created scan, is preserved by every lifecycle operation (run, complete,
fail, retry), and therefore holds in every reachable record, completed
records included. -/
theorem scan_count_invariant :
    CountInvariant createScan ∧
    (∀ r r2 : ScanRecord, CountInvariant r → LifecycleStep r r2 → CountInvariant r2) ∧
    (∀ r : ScanRecord, LifecycleReachable r → CountInvariant r) := by
  have hstep : ∀ r r2 : ScanRecord,
      CountInvariant r → LifecycleStep r r2 → CountInvariant r2 := by
    intro r r2 hr hstep
    cases hstep with
    | start h => exact hr
    | complete classified h =>
      show (completeScan r classified).total_images
        = (completeScan r classified).images_with_alt
          + (completeScan r classified).images_missing_alt
      simp [completeScan, aggregate]
      exact countP_add_countP_not classified
    | fail msg h => exact hr
    | retry a hok =>
      unfold retryScan at hok
      by_cases hf : r.status = .failed
      · rw [if_pos hf] at hok
        cases hok
        exact hr
      · rw [if_neg hf] at hok
        cases hok
  refine ⟨rfl, hstep, ?_⟩
  intro r hreach
  induction hreach with
  | refl => rfl
  | tail hr hs ih => exact hstep _ _ ih hs

/-- Witness for C3: the invariant holds on a completed scan of the
three-image scenario of spec §8. -/
theorem scan_count_invariant_witness :
    CountInvariant (completeScan (startScan createScan)
      [⟨true, false, some 5⟩, ⟨true, true, none⟩, ⟨false, false, none⟩]) :=
  scan_count_invariant.2.2 _
    (Relation.ReflTransGen.tail
      (Relation.ReflTransGen.tail Relation.ReflTransGen.refl
        (LifecycleStep.start createScan rfl))
      (LifecycleStep.complete (startScan createScan)
        [⟨true, false, some 5⟩, ⟨true, true, none⟩, ⟨false, false, none⟩] rfl))

/-- C5: a `RetryScan` request on a `completed` or `running` scan is
rejected with the invalid-state error and leaves the record — its
`ImageDetail` rows included — unchanged; `RetryScan` is accepted exactly
when the current status is `failed`. -/
theorem retryScan_spec :
    (∀ r : ScanRecord, r.status = .completed ∨ r.status = .running →
      applyRetryScan r = (r, some .invalidState)) ∧
    (∀ r : ScanRecord, (∃ r2, retryScan r = .ok r2) ↔ r.status = .failed) := by
  constructor
  · intro r h
    have hne : ¬r.status = .failed := by rcases h with h | h <;> simp [h]
    simp [applyRetryScan, retryScan, hne]
  · intro r
    constructor
    · rintro ⟨r2, h⟩
      unfold retryScan at h
      by_cases hf : r.status = .failed
      · exact hf
      · rw [if_neg hf] at h
        cases h
    · intro h
      refine ⟨{ r with status := .pending, error_message := none, images := [] }, ?_⟩
      simp [retryScan, h]

/-- Witness for C5: retrying a concrete completed scan is rejected and the
record, image rows included, is returned unchanged. -/
theorem retryScan_spec_witness :
    applyRetryScan ⟨.completed, 3, 2, 1, 667/10, none,
      [⟨true, false, some 5⟩, ⟨true, true, none⟩, ⟨false, false, none⟩]⟩
      = (⟨.completed, 3, 2, 1, 667/10, none,
        [⟨true, false, some 5⟩, ⟨true, true, none⟩, ⟨false, false, none⟩]⟩,
        some .invalidState) :=
  retryScan_spec.1 _ (Or.inl rfl)

/-- C4: the coverage percentage is `images_with_alt / total_images * 100`
rounded to one decimal place half-up, is exactly `0` (never undefined) when
`total_images = 0`, is what `completeScan` persists, and evaluates to
`66.7` for 2 images with alt out of 3. -/
theorem coverage_spec :
    (∀ images : List ClassifiedAlt, (aggregate images).total_images = 0 →
      (aggregate images).coverage_percentage = 0) ∧
    (∀ images : List ClassifiedAlt, (aggregate images).total_images ≠ 0 →
      (aggregate images).coverage_percentage =
        (⌊((aggregate images).images_with_alt : ℚ)
          / ((aggregate images).total_images : ℚ) * 100 * 10 + 1 / 2⌋ : ℚ) / 10) ∧
    (∀ (r : ScanRecord) (images : List ClassifiedAlt),
      (completeScan r images).alt_text_coverage_percentage =
        (aggregate images).coverage_percentage) ∧
    ((aggregate [⟨true, false, some 5⟩, ⟨true, true, none⟩,
        ⟨false, false, none⟩]).total_images = 3 ∧
     (aggregate [⟨true, false, some 5⟩, ⟨true, true, none⟩,
        ⟨false, false, none⟩]).images_with_alt = 2 ∧
     (aggregate [⟨true, false, some 5⟩, ⟨true, true, none⟩,
        ⟨false, false, none⟩]).coverage_percentage = 667 / 10) := by
  refine ⟨?_, ?_, ?_, ?_, ?_, ?_⟩
  · intro images h
    simp [aggregate] at h ⊢
    simp [h]
  · intro images h
    simp only [aggregate] at h ⊢
    rw [if_neg h]
    rfl
  · intro r images
    rfl
  · rfl
  · rfl
  · show (if (3 : Nat) = 0 then (0 : ℚ)
      else roundHalfUpTenths ((2 : ℚ) / (3 : ℚ) * 100)) = 667 / 10
    rw [if_neg (by norm_num)]
    unfold roundHalfUpTenths
    norm_num [Int.floor_eq_iff]

/-- Witness for C4: the empty page has coverage exactly `0`. -/
theorem coverage_spec_witness :
    (aggregate []).coverage_percentage = 0 :=
  coverage_spec.1 [] rfl

/-- Every address the SSRF claim lists is non-public for the validator. -/
theorem nonPublic_of_listed (addr : IPAddr) (h : isClaimListedAddress addr = true) :
    isNonPublicAddress addr = true := by
  cases addr with
  | v4 a b c d =>
    simp only [isClaimListedAddress, Bool.or_eq_true, Bool.and_eq_true, beq_iff_eq] at h
    simp only [isNonPublicAddress, Bool.or_eq_true, Bool.and_eq_true, beq_iff_eq,
      decide_eq_true_eq]
    omega
  | v6 segs =>
    simp only [isClaimListedAddress, beq_iff_eq] at h
    subst h
    decide

/-- For an `http`/`https` URL resolving to a claim-listed address, the
validator returns exactly `SSRFBlocked`. -/
theorem validateURL_ssrfBlocked (resolve : String → List IPAddr) (u : URLParts)
    (addr : IPAddr) (hmem : addr ∈ resolve u.host)
    (hlisted : isClaimListedAddress addr = true)
    (hscheme : u.scheme = "http" ∨ u.scheme = "https") :
    validateURL resolve u = .error .ssrfBlocked := by
  unfold validateURL
  have h1 : ¬(u.scheme ≠ "http" ∧ u.scheme ≠ "https") := by
    rcases hscheme with h | h <;> simp [h]
  rw [if_neg h1]
  have h2 : ¬(resolve u.host = []) := by
    intro h
    rw [h] at hmem
    exact (List.not_mem_nil addr) hmem
  rw [if_neg h2]
  have h3 : (resolve u.host).any isNonPublicAddress = true :=
    List.any_eq_true.mpr ⟨addr, hmem, nonPublic_of_listed addr hlisted⟩
  simp [h3]

/-- C2 (amended): for every `http`/`https` URL whose hostname resolves to
`127.0.0.1`, `10.0.0.0/8`, `169.254.0.0/16` or `::1`, every reachable state
of the `RequestScan` pipeline has no fetch attempted and is not
`completed`; any reachable `failed` state carries exactly `SSRFBlocked`;
and every reachable non-terminal (`pending`/`running`) state can step — so
the pipeline always ends `failed` with `SSRFBlocked` and no outbound fetch
is ever attempted.  The scheme condition is forced by the counterexample:
with a non-`http(s)` scheme the validator fails first with a
`ValidationError` (still `failed`, still no fetch). -/
theorem requestScan_ssrf_guard (resolve : String → List IPAddr) (u : URLParts)
    (addr : IPAddr) (hmem : addr ∈ resolve u.host)
    (hlisted : isClaimListedAddress addr = true)
    (hscheme : u.scheme = "http" ∨ u.scheme = "https") :
    ∀ s : PipelineState, PipelineReachable resolve u s →
      s.fetchAttempted = false ∧
      s.status ≠ ScanStatus.completed ∧
      (s.status = ScanStatus.failed → s.error = some EngineError.ssrfBlocked) ∧
      (s.status = ScanStatus.pending ∨ s.status = ScanStatus.running →
        ∃ s2, PipelineStep resolve u s s2) := by
  have key := validateURL_ssrfBlocked resolve u addr hmem hlisted hscheme
  intro s hreach
  have hshape : s = initialPipelineState ∨
      s = { status := .running, error := none, fetchAttempted := false } ∨
      s = { status := .failed, error := some .ssrfBlocked, fetchAttempted := false } := by
    induction hreach with
    | refl => exact Or.inl rfl
    | tail hr hs ih =>
      rcases ih with rfl | rfl | rfl
      · cases hs
        exact Or.inr (Or.inl rfl)
      · cases hs with
        | validationFails e he =>
          rw [key] at he
          cases he
          exact Or.inr (Or.inr rfl)
        | beginFetch su hv =>
          rw [key] at hv
          cases hv
      · cases hs
  rcases hshape with rfl | rfl | rfl
  · refine ⟨rfl, by decide, by decide, fun _ => ?_⟩
    exact ⟨_, PipelineStep.start⟩
  · refine ⟨rfl, by decide, by decide, fun _ => ?_⟩
    exact ⟨_, PipelineStep.validationFails _ key⟩
  · refine ⟨rfl, by decide, fun _ => rfl, ?_⟩
    rintro (h | h) <;> cases h

/-- Witness for C2: a concrete scan of `http://internal.test` resolving
into `10.0.0.0/8`, applied at the initial pipeline state. -/
theorem requestScan_ssrf_guard_witness :
    (initialPipelineState.fetchAttempted = false ∧
     initialPipelineState.status ≠ ScanStatus.completed ∧
     (initialPipelineState.status = ScanStatus.failed →
       initialPipelineState.error = some EngineError.ssrfBlocked) ∧
     (initialPipelineState.status = ScanStatus.pending ∨
       initialPipelineState.status = ScanStatus.running →
       ∃ s2, PipelineStep (fun _ => [IPAddr.v4 10 0 0 5]) ⟨"http", "internal.test"⟩
         initialPipelineState s2)) :=
  requestScan_ssrf_guard (fun _ => [IPAddr.v4 10 0 0 5]) ⟨"http", "internal.test"⟩
    (IPAddr.v4 10 0 0 5) (by simp) (by decide) (Or.inl rfl)
    initialPipelineState Relation.ReflTransGen.refl

/-- Counterexample to C2 as stated: an `ftp` URL resolving to `127.0.0.1`
reaches a terminal `failed` state whose error is a `ValidationError`, not
`SSRFBlocked`, because the validator checks the scheme before resolving the
host — so "always ends with SSRFBlocked" fails without a scheme condition
(no fetch is attempted there either). -/
theorem requestScan_ssrf_counterexample :
    isClaimListedAddress (IPAddr.v4 127 0 0 1) = true ∧
    ∃ s : PipelineState,
      PipelineReachable (fun _ => [IPAddr.v4 127 0 0 1]) ⟨"ftp", "internal.test"⟩ s ∧
      s.status = ScanStatus.failed ∧
      s.error ≠ some EngineError.ssrfBlocked ∧
      (∀ s2, ¬ PipelineStep (fun _ => [IPAddr.v4 127 0 0 1])
        ⟨"ftp", "internal.test"⟩ s s2) := by
  refine ⟨by decide,
    ⟨{ status := .failed, error := some (.validationError "unsupported scheme"),
       fetchAttempted := false }, ?_, rfl, by decide, ?_⟩⟩
  · exact Relation.ReflTransGen.tail
      (Relation.ReflTransGen.tail Relation.ReflTransGen.refl PipelineStep.start)
      (PipelineStep.validationFails _ (by rfl))
  · intro s2 hstep
    cases hstep

end AltAudit
